import Mathlib

/-!
# Verification of `dashboard.py` (strava-running-coach)

Shallow embedding of the single source file `src/dashboard.py` and proofs of
the specification's claims about it.

Modelling conventions:
* Python floats are modelled as rationals (`ℚ`); the float `inf` sentinel is
  an explicit constructor of `PyFloat`.
* Calendar dates are modelled as integer day numbers; `(race_day - today).days`
  becomes plain integer subtraction, and Python's floor division `//` becomes
  `Int.fdiv`.
* The goal file is modelled at the JSON-value level: `json.dump` followed by
  `json.load` is the identity on the JSON values this program writes, so the
  store tracks the parsed value directly, with explicit states for a missing /
  unreadable file and for contents that `json.load` rejects.
* Dynamic failures of the Python code (TypeError, ValueError) are modelled
  with `Except String`.
-/

/-- A Python float value as used by the dashboard: either a finite value
(modelled as a rational) or `float('inf')`.  `seconds_to_pace` is the only
function that tests for the infinite sentinel. -/
inductive PyFloat where
  | fin (q : ℚ)
  | inf
deriving DecidableEq

/-- Truncation toward zero, Python's `int(...)` on a float. -/
def intTrunc (q : ℚ) : Int :=
  if 0 ≤ q then ⌊q⌋ else -⌊-q⌋

/-- Python's floor division `a // b` on floats (result is the floor of the
exact quotient). -/
def pyFloorDiv (a b : ℚ) : ℚ := (⌊a / b⌋ : ℤ)

/-- Python's modulo `a % b` on floats: `a - b * (a // b)`, nonnegative for a
positive divisor. -/
def pyMod (a b : ℚ) : ℚ := a - b * (⌊a / b⌋ : ℤ)

/-- Python's `f"{n:02d}"`: decimal rendering padded with zeros to width 2. -/
def pad2 (n : Int) : String :=
  if 0 ≤ n ∧ n < 10 then "0" ++ toString n else toString n

/-- Embedding of `seconds_to_pace` (dashboard.py lines 50-55):
```
def seconds_to_pace(sec_per_km):
    if sec_per_km == 0 or sec_per_km == float('inf'):
        return "-"
    minutes = int(sec_per_km // 60)
    seconds = int(sec_per_km % 60)
    return f"{minutes}:{seconds:02d} min/km"
``` -/
def seconds_to_pace (sec_per_km : PyFloat) : String :=
  match sec_per_km with
  | .inf => "-"
  | .fin q =>
    if q = 0 then "-"
    else
      let minutes : Int := intTrunc (pyFloorDiv q 60)
      let seconds : Int := intTrunc (pyMod q 60)
      toString minutes ++ ":" ++ pad2 seconds ++ " min/km"

/-- Embedding of `calculate_pace` (dashboard.py lines 44-48):
```
def calculate_pace(moving_time, distance_meters):
    if distance_meters == 0:
        return 0
    pace_sec = moving_time / (distance_meters / 1000)
    return pace_sec
``` -/
def calculate_pace (moving_time distance_meters : ℚ) : ℚ :=
  if distance_meters = 0 then 0
  else moving_time / (distance_meters / 1000)

/-- One entry of the value returned by `generate_training_plan`.  The Python
function returns a list whose elements are *either* bare strings (the
not-enough-time branch returns `["⚠️ ..."]`) *or* lists of workout strings
(the normal branch appends `week_plan` lists); the sum type records that
dynamic distinction. -/
inductive PlanEntry where
  | marker (s : String)
  | week (workouts : List String)
deriving DecidableEq

/-- The not-enough-time marker string (dashboard.py line 61). -/
def notEnoughTimeMsg : String := "⚠️ Not enough time to generate a full training plan."

/-- Embedding of `generate_training_plan` (dashboard.py lines 57-74), with dates as integer
day numbers.  `(race_day - today).days // 7` is Python floor division, hence
`Int.fdiv`. -/
def generate_training_plan (today race_day : Int) (runs_per_week : Nat) : List PlanEntry :=
  let weeks_left : Int := Int.fdiv (race_day - today) 7
  if weeks_left < 2 then
    [.marker notEnoughTimeMsg]
  else
    (List.range weeks_left.toNat).map (fun week =>
      if week = weeks_left.toNat - 1 then
        .week ["Race Week: Taper, 2 short easy runs"]
      else
        .week (("Long Run (" ++ toString (10 + week * 1) ++ " to " ++ toString (14 + week * 1) ++ " km)")
          :: ((if 4 ≤ runs_per_week then ["Tempo Run (4-8 km at goal pace)"] else [])
            ++ (if 5 ≤ runs_per_week then ["Intervals (e.g., 4x1km faster pace)"] else [])
            ++ ["1–2 Easy Runs (5–8 km)"])))

/-! ## Race types and distances -/

/-- The four race types offered by the sidebar selectbox
(dashboard.py line 101). -/
inductive RaceType where
  | fiveK
  | tenK
  | halfMarathon
  | marathon
deriving DecidableEq

/-- The selectbox option string of a race type. -/
def RaceType.name : RaceType → String
  | .fiveK => "5K"
  | .tenK => "10K"
  | .halfMarathon => "Half Marathon"
  | .marathon => "Marathon"

/-- Recover a race type from its option string. -/
def raceTypeOfString (s : String) : Option RaceType :=
  if s = "5K" then some .fiveK
  else if s = "10K" then some .tenK
  else if s = "Half Marathon" then some .halfMarathon
  else if s = "Marathon" then some .marathon
  else none

/-- Embedding of `RACE_DISTANCES` (dashboard.py lines 14-19): race distances in km. -/
def RACE_DISTANCES : RaceType → ℚ
  | .fiveK => 5
  | .tenK => 10
  | .halfMarathon => 21.0975
  | .marathon => 42.195

/-! ## Target-time parsing

`datetime.strptime(target_time_str, "%H:%M:%S")` (dashboard.py line 114)
succeeds exactly on strings of three colon-separated fields, each one or two
ASCII digits, with hour in 0..23, minute in 0..59 and second in 0..61
(CPython's `%S` admits leap seconds), and nothing else in the string.  On
success the module computes `t.hour * 3600 + t.minute * 60 + t.second`
(line 115). -/

/-- Split a character list at every colon (the groups `strptime` must match
against `%H`, `%M`, `%S`). -/
def splitCols : List Char → List (List Char)
  | [] => [[]]
  | c :: rest =>
    if c = ':' then [] :: splitCols rest
    else
      match splitCols rest with
      | g :: gs => (c :: g) :: gs
      | [] => [[c]]

/-- The decimal value of a digit group. -/
def digitsVal (cs : List Char) : Nat :=
  cs.foldl (fun n c => n * 10 + (c.toNat - 48)) 0

/-- A group matches a numeric `strptime` directive when it is one or two
ASCII digits. -/
def fieldOk (cs : List Char) : Bool :=
  decide (1 ≤ cs.length) && decide (cs.length ≤ 2) && cs.all Char.isDigit

/-- Model of the `strptime`-and-total-seconds step: `some totalSeconds` when
`target_time_str` parses as `"%H:%M:%S"` (three colon-separated groups of
one or two digits, hour ≤ 23, minute ≤ 59, second ≤ 61, nothing left over),
`none` when `strptime` raises. -/
def parse_target_time (s : String) : Option Nat :=
  match splitCols s.toList with
  | [h, m, sec] =>
    if fieldOk h && fieldOk m && fieldOk sec
        && decide (digitsVal h ≤ 23) && decide (digitsVal m ≤ 59)
        && decide (digitsVal sec ≤ 61) then
      some (digitsVal h * 3600 + digitsVal m * 60 + digitsVal sec)
    else none
  | _ => none


/-! ## Goal store

`save_goal` / `load_goal` (dashboard.py lines 23-32):
```
def save_goal(goal_data):
    with open(GOAL_FILE, "w") as f:
        json.dump(goal_data, f)

def load_goal():
    try:
        with open(GOAL_FILE, "r") as f:
            return json.load(f)
    except:
        return None
```
The file is modelled at the JSON-value level: `json.dump` writes the unique
serialization of a JSON value and `json.load` recovers exactly that value
(this is an identity for the string-keyed objects this program writes), so
the store state carries the parsed value, plus explicit states for a missing
or unreadable file and for contents `json.load` rejects.  The bare `except`
catches every failure, so `load_goal` is total and returns `None` on any
open/parse failure. -/

/-- A JSON value, as produced by `json.load`. -/
inductive Json where
  | null
  | bool (b : Bool)
  | num (q : ℚ)
  | str (s : String)
  | arr (items : List Json)
  | obj (fields : List (String × Json))

/-- State of the single goal file. -/
inductive GoalFile where
  | absent
  | malformed
  | json (v : Json)

/-- Embedding of `save_goal`: unconditionally overwrite the goal file with the
serialization of `goal_data` (last writer wins; the previous state is
ignored). -/
def save_goal (goal_data : Json) (_ : GoalFile) : GoalFile := .json goal_data

/-- Embedding of `load_goal`: return the parsed contents of the goal file, or `none` when
opening or parsing fails (the bare `except` turns every failure into
`None`). -/
def load_goal : GoalFile → Option Json
  | .json v => some v
  | .absent => none
  | .malformed => none

/-! ## The goal record -/

/-- The dict built as `current_goal_data` (dashboard.py lines 124-131). -/
structure GoalRecord where
  race_type : RaceType
  target_time : String
  race_date : String
  runs_per_week : Nat
  target_pace_sec : Option ℚ
  target_pace_formatted : String
deriving DecidableEq

/-- The JSON object `json.dump` receives for a goal record, with the exact
key set and order of dashboard.py lines 124-131. -/
def encodeGoal (g : GoalRecord) : Json :=
  .obj [("race_type", .str g.race_type.name),
        ("target_time", .str g.target_time),
        ("race_date", .str g.race_date),
        ("runs_per_week", .num g.runs_per_week),
        ("target_pace_sec", match g.target_pace_sec with
                            | some q => .num q
                            | none => .null),
        ("target_pace_formatted", .str g.target_pace_formatted)]

/-- Read a goal record back out of a JSON value by the key lookups the
dashboard performs (`goal_data["race_type"]`, ...). -/
def decodeGoal (v : Json) : Option GoalRecord :=
  match v with
  | .obj fields =>
    match fields.lookup "race_type", fields.lookup "target_time",
        fields.lookup "race_date", fields.lookup "runs_per_week",
        fields.lookup "target_pace_sec", fields.lookup "target_pace_formatted" with
    | some (.str rt), some (.str tt), some (.str rd), some (.num rpw),
        some pace, some (.str tpf) =>
      match raceTypeOfString rt, pace with
      | some r, .num q =>
        if rpw.den = 1 ∧ 0 ≤ rpw.num then
          some ⟨r, tt, rd, rpw.num.toNat, some q, tpf⟩
        else none
      | some r, .null =>
        if rpw.den = 1 ∧ 0 ≤ rpw.num then
          some ⟨r, tt, rd, rpw.num.toNat, none, tpf⟩
        else none
      | _, _ => none
    | _, _, _, _, _, _ => none
  | _ => none

/-! ## The per-render goal computation (module level) -/

/-- The sidebar inputs of one render: race type (selectbox over the four
options), target-time text, race date (as the `str(race_date)` string) and
runs per week (selectbox over 3,4,5,6). -/
structure SidebarInputs where
  race_type : RaceType
  target_time_str : String
  race_date : String
  runs_per_week : Nat

/-- The target-pace computation (dashboard.py lines 112-121):
```
try:
    t = datetime.strptime(target_time_str, "%H:%M:%S")
    total_seconds = t.hour * 3600 + t.minute * 60 + t.second
    race_distance_km = RACE_DISTANCES[race_type]
    target_pace_sec = total_seconds / race_distance_km
    target_pace_formatted = seconds_to_pace(target_pace_sec)
except:
    target_pace_sec = None
    target_pace_formatted = "Invalid format!"
```
Returns the pair `(target_pace_sec, target_pace_formatted)`; the branch that
catches the `strptime` failure yields the `None` sentinel and the
invalid-format marker, and the step itself never raises. -/
def target_pace_step (race_type : RaceType) (target_time_str : String) :
    Option ℚ × String :=
  match parse_target_time target_time_str with
  | some total_seconds =>
    let target_pace_sec : ℚ := (total_seconds : ℚ) / RACE_DISTANCES race_type
    (some target_pace_sec, seconds_to_pace (.fin target_pace_sec))
  | none => (none, "Invalid format!")

/-- Embedding of `current_goal_data` (dashboard.py lines 124-131): the dict assembled from
the sidebar inputs and the target-pace computation. -/
def current_goal_data (inp : SidebarInputs) : GoalRecord :=
  let p := target_pace_step inp.race_type inp.target_time_str
  { race_type := inp.race_type
    target_time := inp.target_time_str
    race_date := inp.race_date
    runs_per_week := inp.runs_per_week
    target_pace_sec := p.1
    target_pace_formatted := p.2 }

/-- One render's goal cycle on the goal file (dashboard.py lines 96-132):
the previous contents are loaded (used only to pre-fill the sidebar
widgets), the goal is recomputed from the sidebar inputs, and
`save_goal(current_goal_data)` overwrites the file unconditionally. -/
def render_goal_cycle (inp : SidebarInputs) (f : GoalFile) : GoalFile :=
  save_goal (encodeGoal (current_goal_data inp)) f

/-- The pace-chart target line (dashboard.py line 202):
`ax.axhline(y=current_goal_data["target_pace_sec"]/60, ...)`.
When `target_pace_sec` is the `None` sentinel, Python evaluates `None / 60`
and raises `TypeError`, aborting the render; otherwise the division
succeeds. -/
def pace_chart_target_line (target_pace_sec : Option ℚ) : Except String ℚ :=
  match target_pace_sec with
  | some q => .ok (q / 60)
  | none => .error "TypeError: unsupported operand type(s) for /: NoneType and int"

/-! ## Activity fetch and run filter -/

/-- One activity object of the upstream response, restricted to the fields
the dashboard consumes.  `type` is optional because the code reads it with
`act.get("type")`. -/
structure Activity where
  type : Option String
  name : String
  start_date_local : String
  distance : ℚ
  moving_time : ℚ
deriving DecidableEq

/-- The HTTP response the single GET produces. -/
structure HttpResponse where
  status_code : Nat
  body : List Activity

/-- Embedding of `fetch_activities` (dashboard.py lines 34-42): a single request, no
retry; on `status_code != 200` the code calls `st.error(...)` with the
status code and `st.stop()`, aborting the render (modelled as `.error`
carrying the surfaced status); otherwise the decoded body is returned. -/
def fetch_activities (response : HttpResponse) : Except Nat (List Activity) :=
  if response.status_code ≠ 200 then .error response.status_code
  else .ok response.body

/-- The run filter (dashboard.py line 144):
`runs = [act for act in activities if act.get("type") == "Run"]`. -/
def runsOf (activities : List Activity) : List Activity :=
  activities.filter (fun act => act.type = some "Run")

/-! ## Analyst responder -/

/-- Whether `pat` occurs as a contiguous substring of `l` (Python's
`pat in s`). -/
def hasSub (pat : List Char) : List Char → Bool
  | [] => pat.isEmpty
  | c :: rest => pat.isPrefixOf (c :: rest) || hasSub pat rest

/-- Python's `pat in question.lower()`: the question's characters are
lowercased, then searched for the (already lowercase) pattern. -/
def containsSub (question : String) (pat : String) : Bool :=
  hasSub pat.toList (question.toList.map Char.toLower)

/-- Mean of a list of rationals (`Series.mean` of a nonempty numeric
column). -/
def listMean (xs : List ℚ) : ℚ := xs.sum / xs.length

def encouragingMsg : String :=
  "✅ You\x27re currently pacing faster than your goal! Maintain consistency."

def behindGoalMsg : String :=
  "⚡ You\x27re slightly behind goal pace. Focus on tempo runs and sharpening your endurance."

def nextRunMsg : String :=
  "Recommended next run: 6–8 km easy run, or a moderate tempo run based on your energy levels."

def fallbackMsg : String :=
  "I\x27m a data-driven analyst. Please ask about pace, readiness, or training advice."

/-- The message of the "pace" branch (dashboard.py line 80). -/
def paceReportMsg (avg_pace_formatted target_pace_formatted : String) : String :=
  "Your average recent pace is " ++ avg_pace_formatted
    ++ ". Target pace for your goal is " ++ target_pace_formatted ++ "."

/-- Embedding of `ai_analyst_response` (dashboard.py lines 76-89), with the runs
dataframe reduced to its `pace_sec_per_km` column.  Dynamic failures of the
Python code are explicit:
* on an empty runs list, `df["pace_sec_per_km"].mean()` is `NaN`, and the
  "pace" branch then calls `seconds_to_pace(NaN)`, whose `int(nan // 60)`
  raises `ValueError`;
* in the "ready"/"close" branch, `avg_pace < goal_data["target_pace_sec"]`
  raises `TypeError` when `target_pace_sec` is the `None` sentinel, and for
  an empty runs list the comparison `NaN < t` is `False`, selecting the
  behind-goal message. -/
def ai_analyst_response (question : String) (goal_data : GoalRecord)
    (runs_pace : List ℚ) : Except String String :=
  if containsSub question "pace" then
    match runs_pace with
    | [] => .error "ValueError: cannot convert float NaN to integer"
    | _ =>
      .ok (paceReportMsg (seconds_to_pace (.fin (listMean runs_pace)))
        goal_data.target_pace_formatted)
  else if containsSub question "ready" || containsSub question "close" then
    match goal_data.target_pace_sec with
    | none => .error "TypeError: unsupported comparison between float and NoneType"
    | some t =>
      let faster : Bool :=
        match runs_pace with
        | [] => false
        | _ => decide (listMean runs_pace < t)
      if faster then .ok encouragingMsg else .ok behindGoalMsg
  else if containsSub question "next run" then
    .ok nextRunMsg
  else
    .ok fallbackMsg

/-! ## Theorems -/

/-- C9: for every movingTimeSec t, `calculate_pace t 0 = 0` (the
divide-by-zero case is guarded and never fails), and for every
distanceMeters d ≠ 0, `calculate_pace t d = t / (d / 1000)`. -/
theorem C9_calculate_pace_guarded :
    (∀ t : ℚ, calculate_pace t 0 = 0) ∧
    (∀ (t d : ℚ), d ≠ 0 → calculate_pace t d = t / (d / 1000)) := by
  constructor
  · intro t
    simp [calculate_pace]
  · intro t d hd
    simp [calculate_pace, hd]

/-- Witness for C9 at t = 600 s, d = 5000 m. -/
theorem C9_calculate_pace_guarded_witness :
    calculate_pace 600 5000 = 600 / (5000 / 1000) :=
  C9_calculate_pace_guarded.2 600 5000 (by norm_num)

/-- C10: `load_goal` performs no schema validation: every goal-file content
that parses as JSON is returned verbatim (object or not), the result is
`none` exactly when opening or parsing fails, and the function is total
(the bare `except` means it never raises). -/
theorem C10_load_goal_no_validation :
    (∀ v : Json, load_goal (.json v) = some v) ∧
    (∀ f : GoalFile, load_goal f = none ↔ f = .absent ∨ f = .malformed) := by
  constructor
  · intro v
    rfl
  · intro f
    cases f <;> simp [load_goal]

/-- C2 counterexample: with `today = 0`, `race_day = 7`, `runs_per_week = 3`
(one week left), `generate_training_plan` does return the single-element
plan containing the not-enough-time marker, but that element is the bare
marker string, not a week (an ordered sequence of workout strings), so the
returned value does not have the Training Plan shape the claim asserts. -/
theorem C2_degenerate_plan_not_week_shaped :
    generate_training_plan 0 7 3 = [PlanEntry.marker notEnoughTimeMsg] ∧
    ¬ ∃ ws : List String,
        (generate_training_plan 0 7 3)[0]? = some (PlanEntry.week ws) := by
  constructor
  · decide
  · rintro ⟨ws, hws⟩
    rw [show generate_training_plan 0 7 3 = [PlanEntry.marker notEnoughTimeMsg] from by decide]
      at hws
    simp at hws

/-- C2 (amended): for every today, raceDay and runsPerWeek with
`weeksLeft = fdiv (raceDay - today) 7 < 2` (race dates in the past
included), `generate_training_plan` returns, without erroring, the
single-element list whose one element is the not-enough-time marker string
itself — a bare description string rather than a week-sequence, so the
degenerate plan is a flat sequence of strings, not a sequence of weeks. -/
theorem C2_amended_not_enough_time (today race_day : Int) (runs_per_week : Nat)
    (h : Int.fdiv (race_day - today) 7 < 2) :
    generate_training_plan today race_day runs_per_week
      = [PlanEntry.marker notEnoughTimeMsg] := by
  unfold generate_training_plan
  simp [h]

/-- Witness for C2 (amended) at a race date in the past. -/
theorem C2_amended_not_enough_time_witness :
    generate_training_plan 0 (-5) 3 = [PlanEntry.marker notEnoughTimeMsg] :=
  C2_amended_not_enough_time 0 (-5) 3 (by decide)

/-- C3: on `target_time_str = "abc"` (which fails to parse as "HH:MM:SS"),
the goal-computation step does set `target_pace_sec` to the `None` sentinel
and `target_pace_formatted` to the invalid-format marker without raising —
but the dashboard render then does NOT run to completion: the pace-chart
step divides the sentinel by 60 (`current_goal_data["target_pace_sec"]/60`,
dashboard.py line 202), which raises `TypeError` and aborts the render.
This contradicts the claim's (and the spec's) "must still render" clause:
the code is a slip against the stated intent. -/
theorem C3_invalid_time_crashes_chart :
    parse_target_time "abc" = none ∧
    target_pace_step RaceType.halfMarathon "abc" = (none, "Invalid format!") ∧
    pace_chart_target_line (target_pace_step RaceType.halfMarathon "abc").1
      = .error "TypeError: unsupported operand type(s) for /: NoneType and int" := by
  refine ⟨by decide, rfl, rfl⟩

/-- C5 counterexample: the claim says the fetch aborts exactly on a
non-success (non-2xx) status, but the code tests `status_code != 200`:
at status 201 — a 2xx success status — the fetch still aborts.  The
universally quantified claim is therefore false. -/
theorem C5_abort_not_iff_non2xx :
    ¬ (∀ r : HttpResponse,
        (∃ s, fetch_activities r = .error s)
          ↔ ¬ (200 ≤ r.status_code ∧ r.status_code < 300)) := by
  intro hall
  exact (hall ⟨201, []⟩).1 ⟨201, rfl⟩ (by norm_num)

/-- C5 (amended): the activity fetch aborts the current render fatally,
surfacing the HTTP status code and without retrying, exactly when the
response status differs from 200 (so non-200 success codes such as 201 also
abort); on status 200 it returns the response list, and the run filter
keeps exactly the entries whose type equals "Run", discarding every other
activity type. -/
theorem C5_amended_fetch_and_filter (r : HttpResponse) :
    (fetch_activities r = .error r.status_code ↔ r.status_code ≠ 200) ∧
    (r.status_code = 200 → fetch_activities r = .ok r.body) ∧
    (∀ a, a ∈ runsOf r.body ↔ a ∈ r.body ∧ a.type = some "Run") := by
  refine ⟨?_, ?_, ?_⟩
  · constructor
    · intro h h200
      rw [fetch_activities, if_neg (by simpa using h200)] at h
      cases h
    · intro h
      simp [fetch_activities, h]
  · intro h
    simp [fetch_activities, h]
  · intro a
    simp [runsOf, List.mem_filter]

/-- Witness for C5 (amended): a 404 aborts surfacing 404; a 200 returns the
body. -/
theorem C5_amended_fetch_and_filter_witness :
    fetch_activities ⟨404, []⟩ = .error 404 ∧
    fetch_activities ⟨200, []⟩ = .ok [] :=
  ⟨(C5_amended_fetch_and_filter ⟨404, []⟩).1.2 (by norm_num),
   (C5_amended_fetch_and_filter ⟨200, []⟩).2.1 rfl⟩

/-- C1: whenever `weeksLeft = fdiv (raceDay - today) 7 ≥ 2`,
`generate_training_plan` returns exactly `weeksLeft` week-plans indexed
`0..weeksLeft-1`; the plan at the last index is the single taper/race-week
entry, and every other plan at index `week` is, in this fixed order: the
long-run entry with bounds `10+week` km to `14+week` km, then the tempo-run
entry iff `runs_per_week ≥ 4`, then the intervals entry iff
`runs_per_week ≥ 5`, then the one easy-run entry. -/
theorem C1_plan_structure (today race_day : Int) (runs_per_week : Nat)
    (h : 2 ≤ Int.fdiv (race_day - today) 7) :
    (generate_training_plan today race_day runs_per_week).length
        = (Int.fdiv (race_day - today) 7).toNat ∧
    (generate_training_plan today race_day runs_per_week)[
        (Int.fdiv (race_day - today) 7).toNat - 1]?
      = some (PlanEntry.week ["Race Week: Taper, 2 short easy runs"]) ∧
    (∀ week : Nat, week < (Int.fdiv (race_day - today) 7).toNat - 1 →
      (generate_training_plan today race_day runs_per_week)[week]?
        = some (PlanEntry.week
            (("Long Run (" ++ toString (10 + week) ++ " to "
                ++ toString (14 + week) ++ " km)")
              :: ((if 4 ≤ runs_per_week then ["Tempo Run (4-8 km at goal pace)"] else [])
                ++ (if 5 ≤ runs_per_week then ["Intervals (e.g., 4x1km faster pace)"] else [])
                ++ ["1–2 Easy Runs (5–8 km)"])))) := by
  have hn : ¬ Int.fdiv (race_day - today) 7 < 2 := not_lt.2 h
  have hn2 : 2 ≤ (Int.fdiv (race_day - today) 7).toNat := by omega
  rw [generate_training_plan]
  simp only [if_neg hn]
  refine ⟨by simp, ?_, ?_⟩
  · rw [List.getElem?_map, List.getElem?_range (by omega)]
    simp
  · intro week hweek
    rw [List.getElem?_map, List.getElem?_range (by omega)]
    have hne : ¬ week = (Int.fdiv (race_day - today) 7).toNat - 1 := by omega
    simp [hne]

/-- Witness for C1 at `today = 0`, `race_day = 21`, `runs_per_week = 5`
(three weeks left): three week-plans, taper at index 2, and week 0 holding
long run 10–14 km, tempo, intervals and the easy run. -/
theorem C1_plan_structure_witness :
    2 ≤ Int.fdiv ((21 : Int) - 0) 7 ∧
    (generate_training_plan 0 21 5).length = (Int.fdiv ((21 : Int) - 0) 7).toNat ∧
    (generate_training_plan 0 21 5)[(Int.fdiv ((21 : Int) - 0) 7).toNat - 1]?
      = some (PlanEntry.week ["Race Week: Taper, 2 short easy runs"]) ∧
    (generate_training_plan 0 21 5)[0]?
      = some (PlanEntry.week
          (("Long Run (" ++ toString (10 + 0) ++ " to " ++ toString (14 + 0) ++ " km)")
            :: ((if 4 ≤ 5 then ["Tempo Run (4-8 km at goal pace)"] else [])
              ++ (if 5 ≤ 5 then ["Intervals (e.g., 4x1km faster pace)"] else [])
              ++ ["1–2 Easy Runs (5–8 km)"]))) :=
  ⟨by decide,
   (C1_plan_structure 0 21 5 (by decide)).1,
   (C1_plan_structure 0 21 5 (by decide)).2.1,
   (C1_plan_structure 0 21 5 (by decide)).2.2 0 (by decide)⟩

/-- C6: saving a well-formed goal record and then loading returns the same
record: the save overwrites the single file unconditionally (whatever its
previous state), the load returns the saved JSON object verbatim, and the
documented field lookups recover exactly the original record.  Sequential
composition of the two calls is precisely the claim's "no concurrent write
occurs" condition. -/
theorem C6_goal_round_trip (g : GoalRecord) (f : GoalFile) :
    load_goal (save_goal (encodeGoal g) f) = some (encodeGoal g) ∧
    (load_goal (save_goal (encodeGoal g) f)).bind decodeGoal = some g := by
  obtain ⟨r, tt, rd, rpw, pace, tpf⟩ := g
  refine ⟨rfl, ?_⟩
  show decodeGoal (encodeGoal ⟨r, tt, rd, rpw, pace, tpf⟩) = some ⟨r, tt, rd, rpw, pace, tpf⟩
  cases r <;> cases pace <;>
    simp [encodeGoal, decodeGoal, RaceType.name, raceTypeOfString, List.lookup,
      Rat.den_natCast, Rat.num_natCast, Int.toNat_natCast]

/-- C8: on every render's load-then-recompute-then-save cycle, the persisted
goal record has
`target_pace_sec = total_target_seconds / RACE_DISTANCES race_type`
(with the distances 5, 10, 21.0975 and 42.195 km), or the `None` sentinel
when the target time does not parse; and it is always re-derived from the
sidebar's target time and race type — the previously stored file contents
never influence it (the cycle's result is the same whatever the prior store
state was). -/
theorem C8_pace_always_rederived (inp : SidebarInputs) (f f' : GoalFile) :
    load_goal (render_goal_cycle inp f) = some (encodeGoal (current_goal_data inp)) ∧
    (current_goal_data inp).target_pace_sec
      = (parse_target_time inp.target_time_str).map
          (fun total_seconds => (total_seconds : ℚ) / RACE_DISTANCES inp.race_type) ∧
    RACE_DISTANCES .fiveK = 5 ∧ RACE_DISTANCES .tenK = 10 ∧
    RACE_DISTANCES .halfMarathon = 21.0975 ∧ RACE_DISTANCES .marathon = 42.195 ∧
    render_goal_cycle inp f = render_goal_cycle inp f' := by
  refine ⟨rfl, ?_, rfl, rfl, rfl, rfl, rfl⟩
  rw [current_goal_data, target_pace_step]
  cases parse_target_time inp.target_time_str <;> rfl

/-- Truncation is the identity on (casts of) integers. -/
theorem intTrunc_intCast (z : ℤ) : intTrunc (z : ℚ) = z := by
  unfold intTrunc
  split
  · exact Int.floor_intCast z
  · rw [← Int.cast_neg, Int.floor_intCast]
    omega

/-- Truncating `q // 60` gives the floor of `q / 60`. -/
theorem intTrunc_pyFloorDiv (q : ℚ) : intTrunc (pyFloorDiv q 60) = ⌊q / 60⌋ := by
  rw [pyFloorDiv, intTrunc_intCast]

/-- Python's `q % 60` is nonnegative. -/
theorem pyMod_sixty_nonneg (q : ℚ) : 0 ≤ pyMod q 60 := by
  rw [pyMod]
  have h1 : ((⌊q / 60⌋ : ℤ) : ℚ) ≤ q / 60 := Int.floor_le (q / 60)
  have h2 : (60 : ℚ) * ((⌊q / 60⌋ : ℤ) : ℚ) ≤ 60 * (q / 60) := by linarith
  have h3 : (60 : ℚ) * (q / 60) = q := by ring
  linarith

/-- Flooring after dividing by 60 is integer division of the floor by 60. -/
theorem floor_div_sixty (q : ℚ) : ⌊q / 60⌋ = ⌊q⌋ / 60 := by
  have hr0 : 0 ≤ ⌊q⌋ % 60 := Int.emod_nonneg ⌊q⌋ (by norm_num)
  have hr1 : ⌊q⌋ % 60 < 60 := Int.emod_lt_of_pos ⌊q⌋ (by norm_num)
  have hdr := Int.ediv_add_emod ⌊q⌋ 60
  have hfl : ((⌊q⌋ : ℤ) : ℚ) ≤ q := Int.floor_le q
  have hfu : q < ⌊q⌋ + 1 := Int.lt_floor_add_one q
  rw [Int.floor_eq_iff]
  constructor
  · rw [le_div_iff₀ (by norm_num : (0 : ℚ) < 60)]
    have h60 : ((60 * (⌊q⌋ / 60) : ℤ) : ℚ) ≤ ((⌊q⌋ : ℤ) : ℚ) := by
      exact_mod_cast (by omega : 60 * (⌊q⌋ / 60) ≤ ⌊q⌋)
    push_cast at h60 ⊢
    linarith
  · rw [div_lt_iff₀ (by norm_num : (0 : ℚ) < 60)]
    have h61 : ((⌊q⌋ + 1 : ℤ) : ℚ) ≤ ((60 * (⌊q⌋ / 60) + 60 : ℤ) : ℚ) := by
      exact_mod_cast (by omega : ⌊q⌋ + 1 ≤ 60 * (⌊q⌋ / 60) + 60)
    push_cast at h61 ⊢
    linarith

/-- Truncating `q % 60` equals `⌊q⌋ % 60`. -/
theorem intTrunc_pyMod (q : ℚ) : intTrunc (pyMod q 60) = ⌊q⌋ % 60 := by
  rw [intTrunc, if_pos (pyMod_sixty_nonneg q), pyMod]
  have h1 : q - 60 * ((⌊q / 60⌋ : ℤ) : ℚ) = q - ((60 * ⌊q / 60⌋ : ℤ) : ℚ) := by
    push_cast
    ring
  rw [h1, Int.floor_sub_int, floor_div_sixty, Int.emod_def]

/-- C4: `seconds_to_pace` returns "-" exactly when its input is 0 or the
infinite sentinel, and on every other nonnegative input it returns
`"{minutes}:{seconds:02d} min/km"` with `minutes = ⌊sec / 60⌋` and
`seconds = ⌊sec⌋ mod 60` (truncation, no rounding); the function is a pure
total function over its input domain (nonnegative seconds or the
sentinel). -/
theorem C4_seconds_to_pace_spec :
    (∀ x : PyFloat, seconds_to_pace x = "-" ↔ x = PyFloat.inf ∨ x = PyFloat.fin 0) ∧
    (∀ q : ℚ, 0 ≤ q → q ≠ 0 →
      seconds_to_pace (PyFloat.fin q)
        = toString ⌊q / 60⌋ ++ ":" ++ pad2 (⌊q⌋ % 60) ++ " min/km") := by
  constructor
  · intro x
    cases x with
    | inf => simp [seconds_to_pace]
    | fin q =>
      by_cases hq : q = 0
      · subst hq
        simp [seconds_to_pace]
      · simp only [seconds_to_pace, if_neg hq]
        constructor
        · intro h
          exfalso
          have hlen := congrArg String.length h
          have e1 : (":" : String).length = 1 := rfl
          have e2 : (" min/km" : String).length = 7 := rfl
          have e3 : ("-" : String).length = 1 := rfl
          rw [String.length_append, String.length_append, String.length_append,
            e1, e2, e3] at hlen
          omega
        · intro h
          rcases h with h | h
          · cases h
          · exact absurd (by injection h) hq
  · intro q _ hq
    simp only [seconds_to_pace, if_neg hq]
    rw [intTrunc_pyFloorDiv, intTrunc_pyMod]

/-- Witness for C4 at sec = 302.5: minutes 5, seconds truncated to 02. -/
theorem C4_seconds_to_pace_spec_witness :
    seconds_to_pace (PyFloat.fin (605 / 2)) = "5:02 min/km" := by
  have h := C4_seconds_to_pace_spec.2 (605 / 2) (by norm_num) (by norm_num)
  rw [h]
  norm_num [pad2]
  rfl

/-- A concrete valid goal record used to exhibit the C7 counterexample. -/
def sampleGoal : GoalRecord :=
  { race_type := .tenK
    target_time := "1:00:00"
    race_date := "2026-01-01"
    runs_per_week := 4
    target_pace_sec := some 360
    target_pace_formatted := "6:00 min/km" }

/-- A goal record whose target time failed to parse (pace sentinel `None`),
used to exhibit the C7 counterexample. -/
def invalidPaceGoal : GoalRecord :=
  { race_type := .tenK
    target_time := "abc"
    race_date := "2026-01-01"
    runs_per_week := 4
    target_pace_sec := none
    target_pace_formatted := "Invalid format!" }

/-- C7 counterexample: the claim quantifies over every recent-runs list and
every goal, but the code raises instead of answering in two such cases:
with an empty runs list, the "pace" branch formats the `NaN` mean and
`int(nan // 60)` raises `ValueError`; and in the "ready" branch, comparing
the mean against a `None` target pace raises `TypeError`.  So it is not
true that a question containing "pace" always yields the report message,
nor that "ready" always yields one of the two comparison messages. -/
theorem C7_counterexample_raises :
    ¬ ((∀ (goal : GoalRecord) (runs : List ℚ), ∃ msg,
          ai_analyst_response "pace" goal runs = .ok msg) ∧
       (∀ (goal : GoalRecord) (runs : List ℚ), ∃ msg,
          ai_analyst_response "ready" goal runs = .ok msg)) := by
  rintro ⟨h1, -⟩
  obtain ⟨msg, hmsg⟩ := h1 sampleGoal []
  have h0 : ai_analyst_response "pace" sampleGoal []
      = .error "ValueError: cannot convert float NaN to integer" := rfl
  rw [h0] at hmsg
  cases hmsg

/-- C7 (amended): provided the recent-runs list is nonempty and (for the
ready/close comparison) the goal's target_pace_sec is a number, `respond`
performs case-insensitive substring matching with first-match-wins
priority: "pace" yields the report of the formatted mean pace alongside the
goal's target pace string; otherwise "ready" or "close" yields the
encouraging message exactly when the mean recent pace is strictly below the
target and the behind-goal message otherwise (equality included); otherwise
"next run" yields the fixed recommendation; otherwise the fixed fallback.
On an empty runs list the "pace" branch raises `ValueError`, and with a
`None` target pace the "ready"/"close" branch raises `TypeError`. -/
theorem C7_amended_responder (question : String) (goal : GoalRecord)
    (runs : List ℚ) (t : ℚ) (hr : runs ≠ []) (ht : goal.target_pace_sec = some t) :
    (containsSub question "pace" = true →
      ai_analyst_response question goal runs
        = .ok (paceReportMsg (seconds_to_pace (.fin (listMean runs)))
            goal.target_pace_formatted)) ∧
    (containsSub question "pace" = false →
      (containsSub question "ready" = true ∨ containsSub question "close" = true) →
      ai_analyst_response question goal runs
        = .ok (if listMean runs < t then encouragingMsg else behindGoalMsg)) ∧
    (containsSub question "pace" = false →
      containsSub question "ready" = false → containsSub question "close" = false →
      containsSub question "next run" = true →
      ai_analyst_response question goal runs = .ok nextRunMsg) ∧
    (containsSub question "pace" = false →
      containsSub question "ready" = false → containsSub question "close" = false →
      containsSub question "next run" = false →
      ai_analyst_response question goal runs = .ok fallbackMsg) := by
  obtain ⟨p, ps⟩ := List.exists_cons_of_ne_nil hr
  obtain ⟨rest, hrest⟩ := ps
  subst hrest
  refine ⟨?_, ?_, ?_, ?_⟩
  · intro hpace
    simp [ai_analyst_response, hpace]
  · intro hpace hready
    have hor : (containsSub question "ready" || containsSub question "close") = true := by
      rcases hready with h | h <;> simp [h]
    simp only [ai_analyst_response, hpace, Bool.false_eq_true, if_false, hor, if_true, ht]
    split <;> rename_i hlt
    · rw [if_pos (by simpa using hlt)]
    · rw [if_neg (by simpa using hlt)]
  · intro hpace hready hclose hnext
    simp [ai_analyst_response, hpace, hready, hclose, hnext]
  · intro hpace hready hclose hnext
    simp [ai_analyst_response, hpace, hready, hclose, hnext]

/-- Witness for C7 (amended): "Am I ready?" with one 300 s/km run against a
360 s/km target selects the encouraging message. -/
theorem C7_amended_responder_witness :
    ai_analyst_response "Am I ready?" sampleGoal [300] = .ok encouragingMsg := by
  have h := (C7_amended_responder "Am I ready?" sampleGoal [300] 360
      (by simp) rfl).2.1 (by decide) (Or.inl (by decide))
  rw [h, if_pos (by norm_num [listMean])]
